import Mathlib

/-!
Shallow embedding of `cmd/notation/sign.go` (the `sign` command of the
notary signing CLI): data model, the remote and local signing paths, and
the outcome classification of push failures.  External collaborators
(the signer, the repository backends, digest validation) are modelled as
oracle parameters; repository helpers that are not part of the visible
source are modelled from the spec and marked as such in their doc
comments.  Observable behaviour is captured as a trace: the final error
(or success), the ordered list of stdout/stderr lines, and the ordered
list of I/O-boundary events (repository resolve, signer invocation).
-/

/-- A Go `error` value.  `msg` is the text returned by `Error()`;
`isPushSignatureFailed` records whether `errors.As` with target
`ErrorPushSignatureFailed` succeeds on the error chain. -/
structure GoError where
  msg : String
  isPushSignatureFailed : Bool := false
deriving DecidableEq

/-- An OCI descriptor, reduced to the field the command observes:
`Digest.String()`. -/
structure Descriptor where
  digestStr : String
deriving DecidableEq

/-- A line written by the command, tagged with its stream. -/
inductive OutputEvent where
  | stdout (line : String)
  | stderr (line : String)
deriving DecidableEq

/-- `SignOptions` as assembled by the command: the fields of
`SignerSignOptions` plus the user metadata. -/
structure SignOptions where
  artifactReference : String
  signatureMediaType : String
  expiryDuration : Nat
  pluginConfig : List (String × String)
  userMetadata : List (String × String)
deriving DecidableEq

/-- An I/O-boundary event: a repository `Resolve`, or the signer
invocation (signature production plus push). -/
inductive IOEvent where
  | resolveStep (reference : String)
  | signStep (opts : SignOptions)
deriving DecidableEq

/-- The observable outcome of one command invocation: the returned error
(`none` on success), the output lines in order, and the I/O events in
order. -/
structure RunTrace where
  err : Option GoError
  out : List OutputEvent
  io : List IOEvent
deriving DecidableEq

/-- The `signOpts` flag structure of the command (fields the core
workflow reads). -/
structure SignOpts where
  signatureFormat : String
  expiry : Nat
  pluginConfig : List String
  userMetadata : List String
  reference : String
  signatureManifest : String
  localContent : Bool
deriving DecidableEq

def signatureManifestArtifact : String := "artifact"

def signatureManifestImage : String := "image"

def referrersTagSchemaDeleteError : String := "failed to delete dangling referrers index"

def supportedSignatureManifest : List String := [signatureManifestArtifact, signatureManifestImage]

/-- `validateSignatureManifest`, with the generic slice-membership helper
embedded as list membership. -/
def validateSignatureManifest (signatureManifest : String) : Bool :=
  supportedSignatureManifest.contains signatureManifest

/-- Containment of `needle` as a contiguous run of the haystack. -/
def listContainsSub (needle : List Char) : List Char → Bool
  | [] => List.isPrefixOf needle []
  | c :: t => List.isPrefixOf needle (c :: t) || listContainsSub needle t

/-- Go `strings.Contains`: substring containment on the character
lists. -/
def stringContains (s sub : String) : Bool :=
  listContainsSub sub.data s.data

/-- The mutable-tag advisory printed to stderr (identical text on the
remote and the local path). -/
def mutableTagWarning (tag : String) : String :=
  "Warning: Always sign the artifact using digest(@sha256:...) rather than a tag(:" ++ tag ++ ") because tags are mutable and a tag reference can point to a different artifact than the one signed."

/-- The warning printed to stderr when removal of an outdated referrers
index is unsupported by the registry. -/
def gcWarning : String :=
  "Warning: Removal of outdated referrers index is not supported by the remote registry. Garbage collection may be required."

/-- Rendering of a descriptor by Go `%+v` formatting, reduced to the
digest field the embedding carries. -/
def descriptorRender (desc : Descriptor) : String :=
  "Digest:" ++ desc.digestStr

/-- The informational stdout line printed after the local-layout
resolve. -/
def descLine (reference : String) (desc : Descriptor) : String :=
  "OCI layout reference " ++ reference ++ " resolved to target manifest descriptor: " ++ descriptorRender desc

/-- The guidance appended to a push failure under the artifact manifest
kind. -/
def artifactManifestGuidance : String :=
  ". Possible reason: target registry does not support OCI artifact manifest. Try removing the flag `--signature-manifest artifact` to store signatures using OCI image manifest"

/-- Modelled from the spec: the envelope media-type lookup
(`internal/envelope.GetEnvelopeMediaType` is not under src/).  A fixed
table mapping jws and cose to their media types; unknown formats fail. -/
def getEnvelopeMediaType (format : String) : Except GoError String :=
  if format = "jws" then .ok "application/jose+json"
  else if format = "cose" then .ok "application/cose"
  else .error { msg := "signature format " ++ format ++ " not supported" }

/-- Split a character list at the first occurrence of `sep`: the part
before that occurrence and the part after it, or `none` when `sep` does
not occur. -/
def breakAtFirst (sep : Char) : List Char → Option (List Char × List Char)
  | [] => none
  | c :: t =>
    if c = sep then some ([], t)
    else
      match breakAtFirst sep t with
      | some (pre, post) => some (c :: pre, post)
      | none => none

/-- Split a `key=value` entry at the first separator; `none` when the
entry is malformed (no separator, empty key, or empty value). -/
def cutEq (entry : String) : Option (String × String) :=
  match breakAtFirst '=' entry.data with
  | none => none
  | some (k, v) => if k = [] ∨ v = [] then none else some (⟨k⟩, ⟨v⟩)

/-- Recursive worker of the flag map parser: fails on a malformed entry
or a key already accumulated. -/
def parseFlagMapAux (flagName : String) : List String → List (String × String) → Except GoError (List (String × String))
  | [], acc => .ok acc
  | e :: rest, acc =>
    match cutEq e with
    | none => .error { msg := "could not parse flag " ++ flagName ++ ": " ++ e ++ " is not a valid key-value pair" }
    | some (k, v) =>
      if acc.any (fun p => p.1 = k) then
        .error { msg := "could not parse flag " ++ flagName ++ ": duplicate key " ++ k }
      else
        parseFlagMapAux flagName rest (acc ++ [(k, v)])

/-- Modelled from the spec: the flag map parser
(`internal/cmd.ParseFlagMap` is not under src/).  It turns a list of
`key=value` strings into a mapping, rejecting duplicates and malformed
entries; it is pure and fails closed. -/
def parseFlagMap (entries : List String) (flagName : String) : Except GoError (List (String × String)) :=
  parseFlagMapAux flagName entries []

/-- At least one entry of the list is not a well-formed `key=value`
pair. -/
def hasMalformedEntry (entries : List String) : Bool :=
  entries.any (fun e => (cutEq e).isNone)

/-- The keys of the well-formed entries, in order. -/
def entryKeys (entries : List String) : List String :=
  entries.filterMap (fun e => (cutEq e).map Prod.fst)

/-- Whether the key list, read left to right starting from the already
`seen` keys, ever repeats a key. -/
def hasDupFrom (seen : List String) : List String → Bool
  | [] => false
  | k :: t => seen.any (fun x => x = k) || hasDupFrom (seen ++ [k]) t

/-- A flag list is bad when some entry is malformed or some key is
given twice. -/
def badEntries (entries : List String) : Bool :=
  hasMalformedEntry entries || hasDupFrom [] (entryKeys entries)

/-- Split a character list at the last occurrence of `sep`: the part
before that occurrence and the part after it, or `none` when `sep` does
not occur. -/
def breakAtLast (sep : Char) : List Char → Option (List Char × List Char)
  | [] => none
  | c :: t =>
    match breakAtLast sep t with
    | some (pre, post) => some (c :: pre, post)
    | none => if c = sep then some ([], t) else none

/-- Modelled from the spec: the local-form reference splitter
(`parseOCILayoutReference` is not under src/).  The layout directory
path and the tag-or-digest are separated by the last `@`, or failing
that the last `:`; missing separator or an empty part is an error. -/
def parseOCILayoutReference (raw : String) : Except GoError (String × String) :=
  match breakAtLast '@' raw.data with
  | some (p, r) =>
    if p = [] ∨ r = [] then .error { msg := "invalid reference: " ++ raw }
    else .ok (⟨p⟩, ⟨r⟩)
  | none =>
    match breakAtLast ':' raw.data with
    | some (p, r) =>
      if p = [] ∨ r = [] then .error { msg := "invalid reference: " ++ raw }
      else .ok (⟨p⟩, ⟨r⟩)
    | none => .error { msg := "invalid reference: " ++ raw }

/-- Modelled from the spec: `localArtifactReference` is not under src/;
the artifact reference embedded for a local layout is the layout path
joined with `@` and the resolved digest (end-to-end scenario C). -/
def localArtifactReference (path ref : String) : String :=
  path ++ "@" ++ ref

/-- A parsed remote registry reference: host, repository path, and the
tag-or-digest part. -/
structure RegistryReference where
  host : String
  repoPath : String
  reference : String
deriving DecidableEq

/-- Rendering of a registry reference: digest-form uses `@`, tag-form
uses `:` (the digest test is the supplied validity oracle). -/
def refString (isValidDigest : String → Bool) (r : RegistryReference) : String :=
  if r.reference = "" then r.host ++ "/" ++ r.repoPath
  else if isValidDigest r.reference then r.host ++ "/" ++ r.repoPath ++ "@" ++ r.reference
  else r.host ++ "/" ++ r.repoPath ++ ":" ++ r.reference

/-- Oracles consumed by the remote signing path: repository-handle
construction, reference parsing, repository resolve, digest-format
validation, and the signer (`Sign` produces and pushes the
signature). -/
structure RemoteEnv where
  getRepo : Bool → Except GoError Unit
  parseRef : String → Except GoError RegistryReference
  resolve : String → Except GoError Descriptor
  isValidDigest : String → Bool
  sign : SignOptions → Except GoError Descriptor

/-- Modelled from the spec: the Reference Resolver (`resolveReference`
is not under src/).  It calls `Resolve` on the repository; `wasTag`
holds when the resolved digest string differs from the literal input
and the input does not pass digest-format validation; when `wasTag`,
the warning callback runs exactly once — the callback supplied by
`prepareRemoteSigningContent` prints the mutable-tag advisory to
stderr.  The returned reference carries the resolved digest. -/
def resolveReference (env : RemoteEnv) (reference : String) :
    Except GoError (RegistryReference × Descriptor) × List OutputEvent × List IOEvent :=
  match env.parseRef reference with
  | .error e => (.error e, [], [])
  | .ok r =>
    match env.resolve r.reference with
    | .error e => (.error e, [], [.resolveStep r.reference])
    | .ok desc =>
      let wasTag := (desc.digestStr != r.reference) && !(env.isValidDigest r.reference)
      if wasTag then
        (.ok ({ r with reference := desc.digestStr }, desc), [.stderr (mutableTagWarning r.reference)], [.resolveStep r.reference])
      else
        (.ok ({ r with reference := desc.digestStr }, desc), [], [.resolveStep r.reference])

/-- `prepareRemoteSigningContent`: derive the envelope media type, parse
both flag maps, resolve the reference, and build the `SignOptions`. -/
def prepareRemoteSigningContent (env : RemoteEnv) (opts : SignOpts) :
    Except GoError (SignOptions × RegistryReference) × List OutputEvent × List IOEvent :=
  match getEnvelopeMediaType opts.signatureFormat with
  | .error e => (.error e, [], [])
  | .ok mediaType =>
    match parseFlagMap opts.pluginConfig "plugin-config" with
    | .error e => (.error e, [], [])
    | .ok pluginConfig =>
      match parseFlagMap opts.userMetadata "user-metadata" with
      | .error e => (.error e, [], [])
      | .ok userMetadata =>
        match resolveReference env opts.reference with
        | (.error e, out, io) => (.error e, out, io)
        | (.ok (ref, _), out, io) =>
          (.ok ({ artifactReference := refString env.isValidDigest ref,
                  signatureMediaType := mediaType,
                  expiryDuration := opts.expiry,
                  pluginConfig := pluginConfig,
                  userMetadata := userMetadata }, ref), out, io)

/-- `signRemote`: obtain the repository handle, prepare the signing
content, invoke the signer, and classify a push failure — guidance when
the manifest kind is artifact, success with a warning when the error
text carries the stale-referrers-index marker under the image kind,
verbatim propagation otherwise. -/
def signRemote (env : RemoteEnv) (opts : SignOpts) (ociImageManifest : Bool) : RunTrace :=
  match env.getRepo ociImageManifest with
  | .error e => ⟨some e, [], []⟩
  | .ok _ =>
    match prepareRemoteSigningContent env opts with
    | (.error e, out, io) => ⟨some e, out, io⟩
    | (.ok (sOpts, ref), out, io) =>
      match env.sign sOpts with
      | .error e =>
        if e.isPushSignatureFailed then
          if !ociImageManifest then
            ⟨some { msg := e.msg ++ artifactManifestGuidance, isPushSignatureFailed := false },
             out, io ++ [.signStep sOpts]⟩
          else if stringContains e.msg referrersTagSchemaDeleteError then
            ⟨none,
             out ++ [.stderr gcWarning, .stdout ("Successfully signed " ++ refString env.isValidDigest ref)],
             io ++ [.signStep sOpts]⟩
          else ⟨some e, out, io ++ [.signStep sOpts]⟩
        else ⟨some e, out, io ++ [.signStep sOpts]⟩
      | .ok _ =>
        ⟨none, out ++ [.stdout ("Successfully signed " ++ refString env.isValidDigest ref)],
         io ++ [.signStep sOpts]⟩

/-- Oracles consumed by the local signing path: layout-repository
construction, layout resolve, digest-format validation, and the
signer. -/
structure LocalEnv where
  repoForSign : Bool → Except GoError Unit
  resolve : String → Except GoError Descriptor
  isValidDigest : String → Bool
  sign : SignOptions → Except GoError Descriptor

/-- `signLocal`: derive the media type, parse both flag maps, split the
layout reference, build the layout repository, resolve inside the
layout, print the resolved descriptor, warn when the input was a tag,
pin the reference to the resolved digest, invoke the signer, and print
the success line with the digest of the descriptor the signer
returned. -/
def signLocal (env : LocalEnv) (opts : SignOpts) (ociImageManifest : Bool) : RunTrace :=
  match getEnvelopeMediaType opts.signatureFormat with
  | .error e => ⟨some e, [], []⟩
  | .ok mediaType =>
    match parseFlagMap opts.pluginConfig "plugin-config" with
    | .error e => ⟨some e, [], []⟩
    | .ok pluginConfig =>
      match parseFlagMap opts.userMetadata "user-metadata" with
      | .error e => ⟨some e, [], []⟩
      | .ok userMetadata =>
        match parseOCILayoutReference opts.reference with
        | .error e => ⟨some e, [], []⟩
        | .ok (path, refIn) =>
          match env.repoForSign ociImageManifest with
          | .error e => ⟨some e, [], []⟩
          | .ok _ =>
            match env.resolve refIn with
            | .error e =>
              ⟨some { msg := "failed to resolve OCI layout reference: " ++ e.msg, isPushSignatureFailed := false },
               [], [.resolveStep refIn]⟩
            | .ok targetDesc =>
              let out1 := [OutputEvent.stdout (descLine refIn targetDesc)]
              let out2 := if env.isValidDigest refIn then out1 else out1 ++ [.stderr (mutableTagWarning refIn)]
              let sOpts : SignOptions :=
                { artifactReference := localArtifactReference path targetDesc.digestStr,
                  signatureMediaType := mediaType,
                  expiryDuration := opts.expiry,
                  pluginConfig := pluginConfig,
                  userMetadata := userMetadata }
              match env.sign sOpts with
              | .error e => ⟨some e, out2, [.resolveStep refIn, .signStep sOpts]⟩
              | .ok targetDesc2 =>
                ⟨none, out2 ++ [.stdout ("Successfully signed " ++ (path ++ "@" ++ targetDesc2.digestStr))],
                 [.resolveStep refIn, .signStep sOpts]⟩

/-- `runSign`: obtain the signer, derive the manifest-kind flag, and
dispatch to the local or the remote path. -/
def runSign (envR : RemoteEnv) (envL : LocalEnv) (getSigner : Except GoError Unit) (opts : SignOpts) : RunTrace :=
  match getSigner with
  | .error e => ⟨some e, [], []⟩
  | .ok _ =>
    let ociImageManifest := opts.signatureManifest == signatureManifestImage
    if opts.localContent then signLocal envL opts ociImageManifest
    else signRemote envR opts ociImageManifest

/-- The `RunE` body: validate the signature-manifest kind, then run the
sign workflow. -/
def runE (envR : RemoteEnv) (envL : LocalEnv) (getSigner : Except GoError Unit) (opts : SignOpts) : RunTrace :=
  if !validateSignatureManifest opts.signatureManifest then
    ⟨some { msg := "signature manifest must be one of the following [artifact image] but got " ++ opts.signatureManifest },
     [], []⟩
  else runSign envR envL getSigner opts

/-- The cobra `Args` hook: fail with `missing reference` on an empty
argument list, otherwise record the first argument as the reference. -/
def commandArgs (args : List String) (opts : SignOpts) : Except GoError SignOpts :=
  match args with
  | [] => .error { msg := "missing reference" }
  | a :: _ => .ok { opts with reference := a }

/-- Full command execution: cobra runs the `Args` hook before `RunE`. -/
def execSignCommand (envR : RemoteEnv) (envL : LocalEnv) (getSigner : Except GoError Unit)
    (args : List String) (opts : SignOpts) : RunTrace :=
  match commandArgs args opts with
  | .error e => ⟨some e, [], []⟩
  | .ok opts2 => runE envR envL getSigner opts2

/-- Success-line recogniser: a stdout line starting with the literal
success text. -/
def isSuccessLine : OutputEvent → Bool
  | .stdout s => List.isPrefixOf "Successfully signed ".data s.data
  | .stderr _ => false

/-- A concrete digest string used by the demonstration oracles. -/
def demoDigest : String := "sha256:ef01"

/-- The descriptor the demonstration repository resolves to. -/
def demoDesc : Descriptor := ⟨demoDigest⟩

/-- Demonstration digest-format validity: exactly the demo digest. -/
def demoIsValidDigest (s : String) : Bool := s == demoDigest

/-- Demonstration flag values: jws envelope, image manifest kind, a
tag-form remote reference. -/
def demoOpts : SignOpts :=
  { signatureFormat := "jws", expiry := 0, pluginConfig := [], userMetadata := [],
    reference := "registry.example.com/repo:v1", signatureManifest := "image",
    localContent := false }

/-- Demonstration remote oracles on which every step succeeds. -/
def demoRemoteEnv : RemoteEnv :=
  { getRepo := fun _ => .ok (),
    parseRef := fun _ => .ok ⟨"registry.example.com", "repo", "v1"⟩,
    resolve := fun _ => .ok demoDesc,
    isValidDigest := demoIsValidDigest,
    sign := fun _ => .ok demoDesc }

/-- A push failure whose text carries the stale-referrers-index
marker. -/
def demoPushErr : GoError :=
  { msg := "failed to delete dangling referrers index", isPushSignatureFailed := true }

/-- Demonstration remote oracles whose signer reports the marker push
failure. -/
def demoRemoteEnvPush : RemoteEnv :=
  { demoRemoteEnv with sign := fun _ => .error demoPushErr }

/-- Demonstration local-layout oracles on which every step succeeds. -/
def demoLocalEnv : LocalEnv :=
  { repoForSign := fun _ => .ok (),
    resolve := fun _ => .ok demoDesc,
    isValidDigest := demoIsValidDigest,
    sign := fun _ => .ok demoDesc }

/-- Demonstration local-layout oracles whose signer reports the marker
push failure. -/
def demoLocalEnvPush : LocalEnv :=
  { demoLocalEnv with sign := fun _ => .error demoPushErr }

/-- Demonstration flags for the local path with a digest-form layout
reference. -/
def demoLocalOpts : SignOpts :=
  { demoOpts with reference := "/local/layout@sha256:ef01", localContent := true }

/-- Demonstration flags for the local path with a tag-form layout
reference. -/
def demoLocalTagOpts : SignOpts :=
  { demoOpts with reference := "/local/layout:v1", localContent := true }

theorem string_append_left_cancel {s a b : String} (h : s ++ a = s ++ b) : a = b := by
  have hd := congrArg String.data h
  rw [String.data_append, String.data_append] at hd
  exact String.ext (List.append_cancel_left hd)

theorem isPrefixOf_append_self (l t : List Char) : List.isPrefixOf l (l ++ t) = true := by
  induction l with
  | nil => simp [List.isPrefixOf]
  | cons c cs ih => simp [List.isPrefixOf, ih]

theorem isPrefixOf_head_ne (a b : Char) (l1 l2 : List Char) (h : (a == b) = false) :
    List.isPrefixOf (a :: l1) (b :: l2) = false := by
  simp [List.isPrefixOf, h]

theorem isSuccessLine_stderr (s : String) : isSuccessLine (.stderr s) = false := rfl

theorem isSuccessLine_successLine (s : String) :
    isSuccessLine (.stdout ("Successfully signed " ++ s)) = true := by
  show List.isPrefixOf "Successfully signed ".data ("Successfully signed " ++ s).data = true
  rw [String.data_append]
  exact isPrefixOf_append_self _ _

theorem isSuccessLine_descLine (r : String) (d : Descriptor) :
    isSuccessLine (.stdout (descLine r d)) = false := by
  show List.isPrefixOf "Successfully signed ".data (descLine r d).data = false
  have h0 : "OCI layout reference ".data = 'O' :: "CI layout reference ".data := rfl
  have h : (descLine r d).data =
      'O' :: ("CI layout reference ".data ++
        (r.data ++ (" resolved to target manifest descriptor: ".data ++ (descriptorRender d).data))) := by
    simp [descLine, String.data_append, h0]
  rw [h, show "Successfully signed ".data = 'S' :: "uccessfully signed ".data from rfl]
  exact isPrefixOf_head_ne _ _ _ _ (by decide)

theorem listContainsSub_append_left (n : List Char) (h1 h2 : List Char)
    (h : listContainsSub n h2 = true) : listContainsSub n (h1 ++ h2) = true := by
  induction h1 with
  | nil => simpa using h
  | cons c t ih => simp [listContainsSub, ih]

theorem stringContains_append_right (x lit sub : String)
    (h : stringContains lit sub = true) : stringContains (x ++ lit) sub = true := by
  simp only [stringContains, String.data_append]
  exact listContainsSub_append_left _ _ _ h

/-- C10: invoking the command with zero positional arguments fails with a
"missing reference" error before manifest-kind validation, signer setup,
or any I/O: for every environment, signer outcome, and flag
configuration (an invalid manifest kind included), the trace carries the
error alone, with no output and no I/O events. -/
theorem exec_no_args_missing_reference (envR : RemoteEnv) (envL : LocalEnv)
    (getSigner : Except GoError Unit) (opts : SignOpts) :
    execSignCommand envR envL getSigner [] opts =
      ⟨some { msg := "missing reference", isPushSignatureFailed := false }, [], []⟩ := rfl

/-- C3: the signature-manifest kind is validated against exactly the set
containing "image" and "artifact", case-sensitively — membership in that
set is accepted and nothing else — and on every other value `RunE` fails
at once with the invalid-argument message, producing no output and no
I/O events, for every environment and signer outcome. -/
theorem signatureManifest_validated_against_fixed_set
    (envR : RemoteEnv) (envL : LocalEnv) (getSigner : Except GoError Unit) (opts : SignOpts) :
    (validateSignatureManifest opts.signatureManifest = true ↔
      (opts.signatureManifest = "artifact" ∨ opts.signatureManifest = "image")) ∧
    (validateSignatureManifest opts.signatureManifest = false →
      runE envR envL getSigner opts =
        ⟨some { msg := "signature manifest must be one of the following [artifact image] but got " ++ opts.signatureManifest,
                isPushSignatureFailed := false }, [], []⟩) := by
  constructor
  · simp [validateSignatureManifest, supportedSignatureManifest,
      signatureManifestArtifact, signatureManifestImage]
  · intro h
    simp [runE, h]

/-- Witness for C3: the kind "Image" (wrong case) is rejected with the
invalid-argument error, no output, and no I/O. -/
theorem signatureManifest_validated_against_fixed_set_witness :
    runE demoRemoteEnv demoLocalEnv (.ok ()) { demoOpts with signatureManifest := "Image" } =
      ⟨some { msg := "signature manifest must be one of the following [artifact image] but got " ++ "Image",
              isPushSignatureFailed := false }, [], []⟩ :=
  (signatureManifest_validated_against_fixed_set demoRemoteEnv demoLocalEnv (.ok ())
    { demoOpts with signatureManifest := "Image" }).2 (by decide)

/-- C1: on a remote signing run with manifest kind "image", when the
signer reports a signature-push failure whose text contains the
stale-referrers-index-deletion marker, the command prints the
garbage-collection warning to the error stream, still prints the
success line with the signed reference, and returns no error. -/
theorem remote_push_referrers_cleanup_success
    (envR : RemoteEnv) (envL : LocalEnv) (opts : SignOpts)
    (sOpts : SignOptions) (ref : RegistryReference) (out : List OutputEvent) (io : List IOEvent)
    (e : GoError)
    (hkind : opts.signatureManifest = "image")
    (hlocal : opts.localContent = false)
    (hrepo : envR.getRepo true = .ok ())
    (hprep : prepareRemoteSigningContent envR opts = (.ok (sOpts, ref), out, io))
    (hsign : envR.sign sOpts = .error e)
    (hpush : e.isPushSignatureFailed = true)
    (hmarker : stringContains e.msg referrersTagSchemaDeleteError = true) :
    runSign envR envL (.ok ()) opts =
      ⟨none,
       out ++ [.stderr gcWarning, .stdout ("Successfully signed " ++ refString envR.isValidDigest ref)],
       io ++ [.signStep sOpts]⟩ := by
  simp only [runSign, hlocal, hkind, signatureManifestImage, Bool.false_eq_true, if_false]
  have himg : ("image" == "image") = true := rfl
  rw [himg]
  simp only [signRemote, hrepo, hprep, hsign, hpush, hmarker]
  simp

/-- Witness for C1: the demonstration registry whose signer reports the
marker push failure yields a warning, the success line, and no error. -/
theorem remote_push_referrers_cleanup_success_witness :
    runSign demoRemoteEnvPush demoLocalEnv (.ok ()) demoOpts =
      ⟨none,
       [.stderr (mutableTagWarning "v1")] ++
         [.stderr gcWarning,
          .stdout ("Successfully signed " ++ refString demoRemoteEnvPush.isValidDigest ⟨"registry.example.com", "repo", "sha256:ef01"⟩)],
       [.resolveStep "v1"] ++
         [.signStep ⟨"registry.example.com/repo@sha256:ef01", "application/jose+json", 0, [], []⟩]⟩ :=
  remote_push_referrers_cleanup_success demoRemoteEnvPush demoLocalEnv demoOpts
    ⟨"registry.example.com/repo@sha256:ef01", "application/jose+json", 0, [], []⟩
    ⟨"registry.example.com", "repo", "sha256:ef01"⟩
    [.stderr (mutableTagWarning "v1")] [.resolveStep "v1"] demoPushErr
    rfl rfl rfl rfl rfl rfl rfl

/-- C2: on a remote signing run with manifest kind "artifact", any
signature-push failure — with or without the referrers-cleanup marker —
makes the command fail, and the error text carries the guidance to retry
with the image manifest kind. -/
theorem remote_push_artifact_kind_guidance
    (envR : RemoteEnv) (envL : LocalEnv) (opts : SignOpts)
    (sOpts : SignOptions) (ref : RegistryReference) (out : List OutputEvent) (io : List IOEvent)
    (e : GoError)
    (hkind : opts.signatureManifest = "artifact")
    (hlocal : opts.localContent = false)
    (hrepo : envR.getRepo false = .ok ())
    (hprep : prepareRemoteSigningContent envR opts = (.ok (sOpts, ref), out, io))
    (hsign : envR.sign sOpts = .error e)
    (hpush : e.isPushSignatureFailed = true) :
    runSign envR envL (.ok ()) opts =
      ⟨some { msg := e.msg ++ artifactManifestGuidance, isPushSignatureFailed := false },
       out, io ++ [.signStep sOpts]⟩ ∧
    stringContains (e.msg ++ artifactManifestGuidance)
      "Try removing the flag `--signature-manifest artifact` to store signatures using OCI image manifest" = true := by
  constructor
  · simp only [runSign, hlocal, hkind, Bool.false_eq_true, if_false]
    have hart : ("artifact" == signatureManifestImage) = false := rfl
    rw [hart]
    simp only [signRemote, hrepo, hprep, hsign, hpush]
    simp
  · exact stringContains_append_right _ _ _ (by decide)

/-- Witness for C2: the demonstration registry under the artifact kind
turns the marker push failure into a hard error carrying the
guidance. -/
theorem remote_push_artifact_kind_guidance_witness :
    runSign demoRemoteEnvPush demoLocalEnv (.ok ()) { demoOpts with signatureManifest := "artifact" } =
      ⟨some { msg := demoPushErr.msg ++ artifactManifestGuidance, isPushSignatureFailed := false },
       [.stderr (mutableTagWarning "v1")],
       [.resolveStep "v1"] ++
         [.signStep ⟨"registry.example.com/repo@sha256:ef01", "application/jose+json", 0, [], []⟩]⟩ ∧
    stringContains (demoPushErr.msg ++ artifactManifestGuidance)
      "Try removing the flag `--signature-manifest artifact` to store signatures using OCI image manifest" = true :=
  remote_push_artifact_kind_guidance demoRemoteEnvPush demoLocalEnv
    { demoOpts with signatureManifest := "artifact" }
    ⟨"registry.example.com/repo@sha256:ef01", "application/jose+json", 0, [], []⟩
    ⟨"registry.example.com", "repo", "sha256:ef01"⟩
    [.stderr (mutableTagWarning "v1")] [.resolveStep "v1"] demoPushErr
    rfl rfl rfl rfl rfl rfl

/-- C9: on the local-content path an error from the signer is propagated
verbatim — never reclassified into a success-with-warning outcome, even
when it is a push failure whose text carries the referrers-cleanup
marker: the trace holds exactly that error and no success line is
printed. -/
theorem local_sign_error_propagated_verbatim
    (env : LocalEnv) (opts : SignOpts) (b : Bool)
    (mediaType : String) (pc um : List (String × String))
    (path refIn : String) (d : Descriptor) (e : GoError)
    (hmt : getEnvelopeMediaType opts.signatureFormat = .ok mediaType)
    (hpc : parseFlagMap opts.pluginConfig "plugin-config" = .ok pc)
    (hum : parseFlagMap opts.userMetadata "user-metadata" = .ok um)
    (hparse : parseOCILayoutReference opts.reference = .ok (path, refIn))
    (hrepo : env.repoForSign b = .ok ())
    (hres : env.resolve refIn = .ok d)
    (hsign : env.sign ⟨localArtifactReference path d.digestStr, mediaType, opts.expiry, pc, um⟩ = .error e) :
    signLocal env opts b =
      ⟨some e,
       if env.isValidDigest refIn then [.stdout (descLine refIn d)]
       else [.stdout (descLine refIn d), .stderr (mutableTagWarning refIn)],
       [.resolveStep refIn, .signStep ⟨localArtifactReference path d.digestStr, mediaType, opts.expiry, pc, um⟩]⟩ ∧
    (signLocal env opts b).out.countP isSuccessLine = 0 := by
  have heq : signLocal env opts b =
      ⟨some e,
       if env.isValidDigest refIn then [.stdout (descLine refIn d)]
       else [.stdout (descLine refIn d), .stderr (mutableTagWarning refIn)],
       [.resolveStep refIn, .signStep ⟨localArtifactReference path d.digestStr, mediaType, opts.expiry, pc, um⟩]⟩ := by
    simp only [signLocal, hmt, hpc, hum, hparse, hrepo, hres, hsign]
    cases hv : env.isValidDigest refIn <;> simp
  refine ⟨heq, ?_⟩
  rw [heq]
  cases hv : env.isValidDigest refIn <;>
    simp [hv, List.countP_cons, isSuccessLine_descLine, isSuccessLine_stderr]

/-- Witness for C9: the demonstration layout whose signer reports the
marker push failure propagates it unchanged and prints no success
line. -/
theorem local_sign_error_propagated_verbatim_witness :
    signLocal demoLocalEnvPush demoLocalTagOpts true =
      ⟨some demoPushErr,
       if demoLocalEnvPush.isValidDigest "v1" then [.stdout (descLine "v1" demoDesc)]
       else [.stdout (descLine "v1" demoDesc), .stderr (mutableTagWarning "v1")],
       [.resolveStep "v1", .signStep ⟨localArtifactReference "/local/layout" demoDesc.digestStr,
          "application/jose+json", 0, [], []⟩]⟩ ∧
    (signLocal demoLocalEnvPush demoLocalTagOpts true).out.countP isSuccessLine = 0 :=
  local_sign_error_propagated_verbatim demoLocalEnvPush demoLocalTagOpts true
    "application/jose+json" [] [] "/local/layout" "v1" demoDesc demoPushErr
    rfl rfl rfl rfl rfl rfl rfl

/-- C4: on the local-content path the target is re-resolved inside the
layout before the signer runs (the resolve event precedes the sign
event), and the artifact reference embedded in the signing request is
the layout path joined with `@` and the resolved digest — never the
tag-or-digest string the user supplied, whenever that differs from the
resolved digest. -/
theorem local_sign_request_digest_pinned
    (env : LocalEnv) (opts : SignOpts) (b : Bool)
    (mediaType : String) (pc um : List (String × String))
    (path refIn : String) (d : Descriptor)
    (hmt : getEnvelopeMediaType opts.signatureFormat = .ok mediaType)
    (hpc : parseFlagMap opts.pluginConfig "plugin-config" = .ok pc)
    (hum : parseFlagMap opts.userMetadata "user-metadata" = .ok um)
    (hparse : parseOCILayoutReference opts.reference = .ok (path, refIn))
    (hrepo : env.repoForSign b = .ok ())
    (hres : env.resolve refIn = .ok d) :
    (signLocal env opts b).io =
      [.resolveStep refIn, .signStep ⟨localArtifactReference path d.digestStr, mediaType, opts.expiry, pc, um⟩] ∧
    localArtifactReference path d.digestStr = path ++ "@" ++ d.digestStr ∧
    (d.digestStr ≠ refIn →
      localArtifactReference path d.digestStr ≠ localArtifactReference path refIn) := by
  refine ⟨?_, rfl, ?_⟩
  · simp only [signLocal, hmt, hpc, hum, hparse, hrepo, hres]
    split <;> simp
  · intro hne heq
    exact hne (string_append_left_cancel heq)

/-- Witness for C4: the demonstration layout with a tag input yields a
resolve event followed by a sign event whose embedded reference is the
layout path joined with the resolved digest, and that reference differs
from the path joined with the tag. -/
theorem local_sign_request_digest_pinned_witness :
    (signLocal demoLocalEnv demoLocalTagOpts true).io =
      [.resolveStep "v1", .signStep ⟨localArtifactReference "/local/layout" demoDesc.digestStr,
         "application/jose+json", 0, [], []⟩] ∧
    localArtifactReference "/local/layout" demoDesc.digestStr = "/local/layout" ++ "@" ++ demoDesc.digestStr ∧
    (demoDesc.digestStr ≠ "v1" →
      localArtifactReference "/local/layout" demoDesc.digestStr ≠ localArtifactReference "/local/layout" "v1") :=
  local_sign_request_digest_pinned demoLocalEnv demoLocalTagOpts true
    "application/jose+json" [] [] "/local/layout" "v1" demoDesc
    rfl rfl rfl rfl rfl rfl

/-- C5: when the reference resolves successfully, the mutable-tag
advisory is emitted exactly once if the input does not pass
digest-format validation (a tag), and never if it does — on the local
path counted over the whole run, and on the remote resolver counted
over its output, assuming the repository hands back digest-valid digest
strings. -/
theorem mutable_tag_warning_exactly_when_tag
    (envL : LocalEnv) (opts : SignOpts) (b : Bool)
    (mediaType : String) (pc um : List (String × String))
    (path refIn : String) (d : Descriptor)
    (envR : RemoteEnv) (raw : String) (r0 : RegistryReference) (d2 : Descriptor)
    (hmt : getEnvelopeMediaType opts.signatureFormat = .ok mediaType)
    (hpc : parseFlagMap opts.pluginConfig "plugin-config" = .ok pc)
    (hum : parseFlagMap opts.userMetadata "user-metadata" = .ok um)
    (hparse : parseOCILayoutReference opts.reference = .ok (path, refIn))
    (hrepo : envL.repoForSign b = .ok ())
    (hres : envL.resolve refIn = .ok d)
    (hparseR : envR.parseRef raw = .ok r0)
    (hresR : envR.resolve r0.reference = .ok d2)
    (hdig : envR.isValidDigest d2.digestStr = true) :
    ((signLocal envL opts b).out.countP (fun ev => ev == .stderr (mutableTagWarning refIn)) =
      if envL.isValidDigest refIn then 0 else 1) ∧
    ((resolveReference envR raw).2.1.countP (fun ev => ev == .stderr (mutableTagWarning r0.reference)) =
      if envR.isValidDigest r0.reference then 0 else 1) := by
  constructor
  · simp only [signLocal, hmt, hpc, hum, hparse, hrepo, hres]
    cases hv : envL.isValidDigest refIn <;> split <;> simp [List.countP_cons]
  · simp only [resolveReference, hparseR, hresR]
    cases hv : envR.isValidDigest r0.reference
    · have hne : (d2.digestStr != r0.reference) = true := by
        rw [bne_iff_ne]
        intro h
        rw [h] at hdig
        rw [hdig] at hv
        exact Bool.true_eq_false.mp hv
      simp [hne, List.countP_cons]
    · simp

/-- Witness for C5: the demonstration layout with the tag "v1" emits the
advisory exactly once, and the demonstration remote resolver on the tag
"v1" emits it exactly once. -/
theorem mutable_tag_warning_exactly_when_tag_witness :
    ((signLocal demoLocalEnv demoLocalTagOpts true).out.countP
        (fun ev => ev == .stderr (mutableTagWarning "v1")) =
      if demoLocalEnv.isValidDigest "v1" then 0 else 1) ∧
    ((resolveReference demoRemoteEnv "registry.example.com/repo:v1").2.1.countP
        (fun ev => ev == .stderr (mutableTagWarning (RegistryReference.mk "registry.example.com" "repo" "v1").reference)) =
      if demoRemoteEnv.isValidDigest (RegistryReference.mk "registry.example.com" "repo" "v1").reference then 0 else 1) :=
  mutable_tag_warning_exactly_when_tag demoLocalEnv demoLocalTagOpts true
    "application/jose+json" [] [] "/local/layout" "v1" demoDesc
    demoRemoteEnv "registry.example.com/repo:v1" ⟨"registry.example.com", "repo", "v1"⟩ demoDesc
    rfl rfl rfl rfl rfl rfl rfl rfl rfl

theorem prepare_ok_artifact_reference (env : RemoteEnv) (opts : SignOpts)
    (sOpts : SignOptions) (ref : RegistryReference) (out : List OutputEvent) (io : List IOEvent)
    (h : prepareRemoteSigningContent env opts = (.ok (sOpts, ref), out, io)) :
    sOpts.artifactReference = refString env.isValidDigest ref := by
  simp only [prepareRemoteSigningContent] at h
  repeat' split at h
  all_goals (try simp_all)
  obtain ⟨⟨hs, hr⟩, -, -⟩ := h
  subst hr
  rw [← hs]

/-- C8: on a successful signing run the printed success line carries the
digest-pinned reference that was signed — for a local layout the layout
path joined with `@` and the resolved digest (given that the signer
returns the target descriptor), never the differing input tag; for the
remote path the embedded artifact reference of the signing request,
which renders host/repository joined with `@` and the digest when the
resolved reference part is a nonempty valid digest. -/
theorem success_line_digest_pinned
    (envL : LocalEnv) (opts : SignOpts) (b : Bool)
    (mediaType : String) (pc um : List (String × String))
    (path refIn : String) (d d2 : Descriptor)
    (envR : RemoteEnv) (optsR : SignOpts) (bR : Bool)
    (sOpts : SignOptions) (ref : RegistryReference) (outR : List OutputEvent) (ioR : List IOEvent)
    (dR : Descriptor)
    (hmt : getEnvelopeMediaType opts.signatureFormat = .ok mediaType)
    (hpc : parseFlagMap opts.pluginConfig "plugin-config" = .ok pc)
    (hum : parseFlagMap opts.userMetadata "user-metadata" = .ok um)
    (hparse : parseOCILayoutReference opts.reference = .ok (path, refIn))
    (hrepo : envL.repoForSign b = .ok ())
    (hres : envL.resolve refIn = .ok d)
    (hsign : envL.sign ⟨localArtifactReference path d.digestStr, mediaType, opts.expiry, pc, um⟩ = .ok d2)
    (hd2 : d2.digestStr = d.digestStr)
    (hrepoR : envR.getRepo bR = .ok ())
    (hprep : prepareRemoteSigningContent envR optsR = (.ok (sOpts, ref), outR, ioR))
    (hsignR : envR.sign sOpts = .ok dR) :
    ((signLocal envL opts b).out.getLast? =
      some (.stdout ("Successfully signed " ++ (path ++ "@" ++ d.digestStr)))) ∧
    (d.digestStr ≠ refIn →
      (signLocal envL opts b).out.getLast? ≠
        some (.stdout ("Successfully signed " ++ (path ++ "@" ++ refIn)))) ∧
    ((signRemote envR optsR bR).out.getLast? =
      some (.stdout ("Successfully signed " ++ sOpts.artifactReference))) ∧
    (envR.isValidDigest ref.reference = true → ref.reference ≠ "" →
      sOpts.artifactReference = ref.host ++ "/" ++ ref.repoPath ++ "@" ++ ref.reference) := by
  have hlast : (signLocal envL opts b).out.getLast? =
      some (.stdout ("Successfully signed " ++ (path ++ "@" ++ d.digestStr))) := by
    simp only [signLocal, hmt, hpc, hum, hparse, hrepo, hres, hsign, hd2]
    cases hv : envL.isValidDigest refIn <;> simp
  refine ⟨hlast, ?_, ?_, ?_⟩
  · intro hne hcontra
    rw [hlast] at hcontra
    have h1 := Option.some.inj hcontra
    have h2 : ("Successfully signed " ++ (path ++ "@" ++ d.digestStr)) =
        ("Successfully signed " ++ (path ++ "@" ++ refIn)) := by
      injection h1
    exact hne (string_append_left_cancel (string_append_left_cancel h2))
  · rw [prepare_ok_artifact_reference envR optsR sOpts ref outR ioR hprep]
    simp only [signRemote, hrepoR, hprep, hsignR]
    simp
  · intro hv hne
    rw [prepare_ok_artifact_reference envR optsR sOpts ref outR ioR hprep]
    simp [refString, hv, hne]

/-- Witness for C8: the demonstration layout signed from the tag "v1"
prints the layout path joined with the resolved digest and not the tag,
and the demonstration registry prints the digest-pinned remote
reference. -/
theorem success_line_digest_pinned_witness :
    ((signLocal demoLocalEnv demoLocalTagOpts true).out.getLast? =
      some (.stdout ("Successfully signed " ++ ("/local/layout" ++ "@" ++ demoDesc.digestStr)))) ∧
    (demoDesc.digestStr ≠ "v1" →
      (signLocal demoLocalEnv demoLocalTagOpts true).out.getLast? ≠
        some (.stdout ("Successfully signed " ++ ("/local/layout" ++ "@" ++ "v1")))) ∧
    ((signRemote demoRemoteEnv demoOpts true).out.getLast? =
      some (.stdout ("Successfully signed " ++
        (SignOptions.mk "registry.example.com/repo@sha256:ef01" "application/jose+json" 0 [] []).artifactReference))) ∧
    (demoRemoteEnv.isValidDigest (RegistryReference.mk "registry.example.com" "repo" "sha256:ef01").reference = true →
      (RegistryReference.mk "registry.example.com" "repo" "sha256:ef01").reference ≠ "" →
      (SignOptions.mk "registry.example.com/repo@sha256:ef01" "application/jose+json" 0 [] []).artifactReference =
        "registry.example.com" ++ "/" ++ "repo" ++ "@" ++ "sha256:ef01") :=
  success_line_digest_pinned demoLocalEnv demoLocalTagOpts true
    "application/jose+json" [] [] "/local/layout" "v1" demoDesc demoDesc
    demoRemoteEnv demoOpts true
    ⟨"registry.example.com/repo@sha256:ef01", "application/jose+json", 0, [], []⟩
    ⟨"registry.example.com", "repo", "sha256:ef01"⟩
    [.stderr (mutableTagWarning "v1")] [.resolveStep "v1"] demoDesc
    rfl rfl rfl rfl rfl rfl rfl rfl rfl rfl rfl

theorem any_map_fst (acc : List (String × String)) (k : String) :
    ((acc.map Prod.fst).any fun x => decide (x = k)) = (acc.any fun p => decide (p.1 = k)) := by
  induction acc with
  | nil => rfl
  | cons p t ih => simp only [List.map_cons, List.any_cons, ih]

theorem parseFlagMapAux_error_of_bad (f : String) (entries : List String) :
    ∀ acc : List (String × String),
      (hasMalformedEntry entries || hasDupFrom (acc.map Prod.fst) (entryKeys entries)) = true →
      ∃ e, parseFlagMapAux f entries acc = .error e := by
  induction entries with
  | nil =>
    intro acc h
    simp [hasMalformedEntry, entryKeys, hasDupFrom] at h
  | cons e rest ih =>
    intro acc h
    cases hc : cutEq e with
    | none =>
      refine ⟨{ msg := "could not parse flag " ++ f ++ ": " ++ e ++ " is not a valid key-value pair" }, ?_⟩
      simp [parseFlagMapAux, hc]
    | some kv =>
      obtain ⟨k, v⟩ := kv
      cases hd : (acc.any fun p => decide (p.1 = k)) with
      | true =>
        refine ⟨{ msg := "could not parse flag " ++ f ++ ": duplicate key " ++ k }, ?_⟩
        simp [parseFlagMapAux, hc, hd]
      | false =>
        have hmal : hasMalformedEntry (e :: rest) = hasMalformedEntry rest := by
          simp [hasMalformedEntry, hc]
        have hkeys : entryKeys (e :: rest) = k :: entryKeys rest := by
          simp [entryKeys, hc]
        have hseen : ((acc.map Prod.fst).any fun x => decide (x = k)) = false := by
          rw [any_map_fst]
          exact hd
        rw [hmal, hkeys] at h
        have h2 : (hasMalformedEntry rest ||
            hasDupFrom ((acc ++ [(k, v)]).map Prod.fst) (entryKeys rest)) = true := by
          rw [List.map_append]
          simp only [hasDupFrom, hseen, Bool.false_or] at h
          simpa using h
        obtain ⟨e2, he2⟩ := ih (acc ++ [(k, v)]) h2
        refine ⟨e2, ?_⟩
        simp only [parseFlagMapAux, hc, hd, Bool.false_eq_true, if_false]
        exact he2

theorem parseFlagMap_error_of_bad (es : List String) (n : String)
    (hb : badEntries es = true) : ∃ e, parseFlagMap es n = .error e :=
  parseFlagMapAux_error_of_bad n es [] (by simpa [badEntries] using hb)

theorem prepare_errors_on_bad (env : RemoteEnv) (opts : SignOpts)
    (hbad : (badEntries opts.pluginConfig || badEntries opts.userMetadata) = true) :
    ∃ e, prepareRemoteSigningContent env opts = (.error e, [], []) := by
  cases hmt : getEnvelopeMediaType opts.signatureFormat with
  | error e => exact ⟨e, by simp [prepareRemoteSigningContent, hmt]⟩
  | ok mt =>
    cases hpc : parseFlagMap opts.pluginConfig "plugin-config" with
    | error e => exact ⟨e, by simp [prepareRemoteSigningContent, hmt, hpc]⟩
    | ok pc =>
      have hbp : badEntries opts.pluginConfig = false := by
        cases hb : badEntries opts.pluginConfig
        · rfl
        · obtain ⟨e, he⟩ := parseFlagMap_error_of_bad _ "plugin-config" hb
          rw [he] at hpc
          simp at hpc
      have hbu : badEntries opts.userMetadata = true := by
        rw [hbp] at hbad
        simpa using hbad
      obtain ⟨e, he⟩ := parseFlagMap_error_of_bad _ "user-metadata" hbu
      exact ⟨e, by simp [prepareRemoteSigningContent, hmt, hpc, he]⟩

theorem signLocal_errors_on_bad (env : LocalEnv) (opts : SignOpts) (b : Bool)
    (hbad : (badEntries opts.pluginConfig || badEntries opts.userMetadata) = true) :
    ∃ e, signLocal env opts b = ⟨some e, [], []⟩ := by
  cases hmt : getEnvelopeMediaType opts.signatureFormat with
  | error e => exact ⟨e, by simp [signLocal, hmt]⟩
  | ok mt =>
    cases hpc : parseFlagMap opts.pluginConfig "plugin-config" with
    | error e => exact ⟨e, by simp [signLocal, hmt, hpc]⟩
    | ok pc =>
      have hbp : badEntries opts.pluginConfig = false := by
        cases hb : badEntries opts.pluginConfig
        · rfl
        · obtain ⟨e, he⟩ := parseFlagMap_error_of_bad _ "plugin-config" hb
          rw [he] at hpc
          simp at hpc
      have hbu : badEntries opts.userMetadata = true := by
        rw [hbp] at hbad
        simpa using hbad
      obtain ⟨e, he⟩ := parseFlagMap_error_of_bad _ "user-metadata" hbu
      exact ⟨e, by simp [signLocal, hmt, hpc, he]⟩

/-- C7: a plugin-config or user-metadata list holding a malformed or
duplicate-key entry makes the run fail on every path before any I/O
boundary is reached: the trace ends in an error with no output lines
and no resolve or sign events, for every environment. -/
theorem bad_flag_entries_rejected_before_io
    (envR : RemoteEnv) (envL : LocalEnv) (getSigner : Except GoError Unit) (opts : SignOpts)
    (hbad : (badEntries opts.pluginConfig || badEntries opts.userMetadata) = true) :
    (runSign envR envL getSigner opts).io = [] ∧
    (runSign envR envL getSigner opts).out = [] ∧
    (runSign envR envL getSigner opts).err ≠ none := by
  cases hgs : getSigner with
  | error e => refine ⟨?_, ?_, ?_⟩ <;> simp [runSign]
  | ok u =>
    cases u
    by_cases hl : opts.localContent = true
    · obtain ⟨e, he⟩ := signLocal_errors_on_bad envL opts (opts.signatureManifest == signatureManifestImage) hbad
      refine ⟨?_, ?_, ?_⟩ <;> simp [runSign, hl, he]
    · have hl' : opts.localContent = false := by
        simpa using hl
      cases hg : envR.getRepo (opts.signatureManifest == signatureManifestImage) with
      | error e => refine ⟨?_, ?_, ?_⟩ <;> simp [runSign, hl', signRemote, hg]
      | ok u2 =>
        cases u2
        obtain ⟨e, he⟩ := prepare_errors_on_bad envR opts hbad
        refine ⟨?_, ?_, ?_⟩ <;> simp [runSign, hl', signRemote, hg, he]

/-- Witness for C7: a duplicate plugin-config key on the demonstration
registry run fails with no output and no I/O events. -/
theorem bad_flag_entries_rejected_before_io_witness :
    (runSign demoRemoteEnv demoLocalEnv (.ok ()) { demoOpts with pluginConfig := ["k=1", "k=2"] }).io = [] ∧
    (runSign demoRemoteEnv demoLocalEnv (.ok ()) { demoOpts with pluginConfig := ["k=1", "k=2"] }).out = [] ∧
    (runSign demoRemoteEnv demoLocalEnv (.ok ()) { demoOpts with pluginConfig := ["k=1", "k=2"] }).err ≠ none :=
  bad_flag_entries_rejected_before_io demoRemoteEnv demoLocalEnv (.ok ())
    { demoOpts with pluginConfig := ["k=1", "k=2"] } (by decide)

theorem resolveReference_out_no_success (env : RemoteEnv) (raw : String) :
    (resolveReference env raw).2.1.countP isSuccessLine = 0 := by
  cases hp : env.parseRef raw with
  | error e => simp [resolveReference, hp]
  | ok r =>
    cases hr : env.resolve r.reference with
    | error e => simp [resolveReference, hp, hr]
    | ok d =>
      by_cases hw : ((d.digestStr != r.reference) && !(env.isValidDigest r.reference)) = true
      · simp [resolveReference, hp, hr, hw, List.countP_cons, isSuccessLine_stderr]
      · have hw' : ((d.digestStr != r.reference) && !(env.isValidDigest r.reference)) = false := by
          simpa using hw
        simp [resolveReference, hp, hr, hw']

theorem prepare_out_no_success (env : RemoteEnv) (opts : SignOpts) :
    (prepareRemoteSigningContent env opts).2.1.countP isSuccessLine = 0 := by
  cases hmt : getEnvelopeMediaType opts.signatureFormat with
  | error e => simp [prepareRemoteSigningContent, hmt]
  | ok mt =>
    cases hpc : parseFlagMap opts.pluginConfig "plugin-config" with
    | error e => simp [prepareRemoteSigningContent, hmt, hpc]
    | ok pc =>
      cases hum : parseFlagMap opts.userMetadata "user-metadata" with
      | error e => simp [prepareRemoteSigningContent, hmt, hpc, hum]
      | ok um =>
        rcases hrr : resolveReference env opts.reference with ⟨res, out, io⟩
        have h2 := resolveReference_out_no_success env opts.reference
        rw [hrr] at h2
        cases res with
        | error e => simpa [prepareRemoteSigningContent, hmt, hpc, hum, hrr] using h2
        | ok pr =>
          obtain ⟨ref, d⟩ := pr
          simpa [prepareRemoteSigningContent, hmt, hpc, hum, hrr] using h2

theorem signLocal_outcome (env : LocalEnv) (opts : SignOpts) (b : Bool) :
    ((signLocal env opts b).err = none →
      (signLocal env opts b).out.countP isSuccessLine = 1 ∧
      ∃ s, (signLocal env opts b).out.getLast? = some (.stdout ("Successfully signed " ++ s))) ∧
    ((signLocal env opts b).err ≠ none →
      (signLocal env opts b).out.countP isSuccessLine = 0) := by
  cases hmt : getEnvelopeMediaType opts.signatureFormat with
  | error e =>
    refine ⟨fun h => ?_, fun h => ?_⟩
    · simp [signLocal, hmt] at h
    · simp [signLocal, hmt]
  | ok mt =>
    cases hpc : parseFlagMap opts.pluginConfig "plugin-config" with
    | error e =>
      refine ⟨fun h => ?_, fun h => ?_⟩
      · simp [signLocal, hmt, hpc] at h
      · simp [signLocal, hmt, hpc]
    | ok pc =>
      cases hum : parseFlagMap opts.userMetadata "user-metadata" with
      | error e =>
        refine ⟨fun h => ?_, fun h => ?_⟩
        · simp [signLocal, hmt, hpc, hum] at h
        · simp [signLocal, hmt, hpc, hum]
      | ok um =>
        cases hpar : parseOCILayoutReference opts.reference with
        | error e =>
          refine ⟨fun h => ?_, fun h => ?_⟩
          · simp [signLocal, hmt, hpc, hum, hpar] at h
          · simp [signLocal, hmt, hpc, hum, hpar]
        | ok pr =>
          obtain ⟨path, refIn⟩ := pr
          cases hrep : env.repoForSign b with
          | error e =>
            refine ⟨fun h => ?_, fun h => ?_⟩
            · simp [signLocal, hmt, hpc, hum, hpar, hrep] at h
            · simp [signLocal, hmt, hpc, hum, hpar, hrep]
          | ok u =>
            cases u
            cases hres : env.resolve refIn with
            | error e =>
              refine ⟨fun h => ?_, fun h => ?_⟩
              · simp [signLocal, hmt, hpc, hum, hpar, hrep, hres] at h
              · simp [signLocal, hmt, hpc, hum, hpar, hrep, hres]
            | ok d =>
              cases hs : env.sign ⟨localArtifactReference path d.digestStr, mt, opts.expiry, pc, um⟩ with
              | error e =>
                refine ⟨fun h => ?_, fun h => ?_⟩
                · simp [signLocal, hmt, hpc, hum, hpar, hrep, hres, hs] at h
                · cases hv : env.isValidDigest refIn <;>
                    simp [signLocal, hmt, hpc, hum, hpar, hrep, hres, hs, hv,
                      List.countP_cons, isSuccessLine_descLine, isSuccessLine_stderr]
              | ok d2 =>
                refine ⟨fun h => ⟨?_, ⟨path ++ "@" ++ d2.digestStr, ?_⟩⟩, fun h => ?_⟩
                · cases hv : env.isValidDigest refIn <;>
                    simp [signLocal, hmt, hpc, hum, hpar, hrep, hres, hs, hv,
                      List.countP_append, List.countP_cons,
                      isSuccessLine_descLine, isSuccessLine_stderr, isSuccessLine_successLine]
                · cases hv : env.isValidDigest refIn <;>
                    simp [signLocal, hmt, hpc, hum, hpar, hrep, hres, hs, hv]
                · exfalso
                  apply h
                  cases hv : env.isValidDigest refIn <;>
                    simp [signLocal, hmt, hpc, hum, hpar, hrep, hres, hs, hv]

theorem signRemote_outcome (env : RemoteEnv) (opts : SignOpts) (b : Bool) :
    ((signRemote env opts b).err = none →
      (signRemote env opts b).out.countP isSuccessLine = 1 ∧
      ∃ s, (signRemote env opts b).out.getLast? = some (.stdout ("Successfully signed " ++ s))) ∧
    ((signRemote env opts b).err ≠ none →
      (signRemote env opts b).out.countP isSuccessLine = 0) := by
  cases hg : env.getRepo b with
  | error e =>
    refine ⟨fun h => ?_, fun h => ?_⟩
    · simp [signRemote, hg] at h
    · simp [signRemote, hg]
  | ok u =>
    cases u
    rcases hp : prepareRemoteSigningContent env opts with ⟨res, out, io⟩
    have hout : out.countP isSuccessLine = 0 := by
      have h2 := prepare_out_no_success env opts
      rw [hp] at h2
      simpa using h2
    cases res with
    | error e =>
      refine ⟨fun h => ?_, fun h => ?_⟩
      · simp [signRemote, hg, hp] at h
      · simpa [signRemote, hg, hp] using hout
    | ok pr =>
      obtain ⟨sOpts, ref⟩ := pr
      cases hs : env.sign sOpts with
      | ok d =>
        refine ⟨fun h => ⟨?_, ⟨refString env.isValidDigest ref, ?_⟩⟩, fun h => ?_⟩
        · simp [signRemote, hg, hp, hs, List.countP_append, List.countP_cons,
            isSuccessLine_successLine, hout]
        · simp [signRemote, hg, hp, hs]
        · exfalso
          apply h
          simp [signRemote, hg, hp, hs]
      | error e =>
        by_cases hpf : e.isPushSignatureFailed = true
        · cases hb : b with
          | false =>
            subst hb
            refine ⟨fun h => ?_, fun h => ?_⟩
            · simp [signRemote, hg, hp, hs, hpf] at h
            · simpa [signRemote, hg, hp, hs, hpf] using hout
          | true =>
            subst hb
            by_cases hm : stringContains e.msg referrersTagSchemaDeleteError = true
            · refine ⟨fun h => ⟨?_, ⟨refString env.isValidDigest ref, ?_⟩⟩, fun h => ?_⟩
              · simp [signRemote, hg, hp, hs, hpf, hm, List.countP_append, List.countP_cons,
                  isSuccessLine_successLine, isSuccessLine_stderr, hout]
              · simp [signRemote, hg, hp, hs, hpf, hm]
              · exfalso
                apply h
                simp [signRemote, hg, hp, hs, hpf, hm]
            · have hm' : stringContains e.msg referrersTagSchemaDeleteError = false := by
                simpa using hm
              refine ⟨fun h => ?_, fun h => ?_⟩
              · simp [signRemote, hg, hp, hs, hpf, hm'] at h
              · simpa [signRemote, hg, hp, hs, hpf, hm'] using hout
        · have hpf' : e.isPushSignatureFailed = false := by
            simpa using hpf
          refine ⟨fun h => ?_, fun h => ?_⟩
          · simp [signRemote, hg, hp, hs, hpf'] at h
          · simpa [signRemote, hg, hp, hs, hpf'] using hout

/-- C6: every invocation yields exactly one of the three user-visible
outcomes: when the run returns no error, exactly one success line is
printed and it is the final output line (any warnings precede it); when
the run returns an error, no success line is ever printed. -/
theorem sign_outcome_trichotomy
    (envR : RemoteEnv) (envL : LocalEnv) (getSigner : Except GoError Unit)
    (args : List String) (opts : SignOpts) :
    ((execSignCommand envR envL getSigner args opts).err = none →
      (execSignCommand envR envL getSigner args opts).out.countP isSuccessLine = 1 ∧
      ∃ s, (execSignCommand envR envL getSigner args opts).out.getLast? =
        some (.stdout ("Successfully signed " ++ s))) ∧
    ((execSignCommand envR envL getSigner args opts).err ≠ none →
      (execSignCommand envR envL getSigner args opts).out.countP isSuccessLine = 0) := by
  cases args with
  | nil =>
    refine ⟨fun h => ?_, fun h => ?_⟩
    · simp [execSignCommand, commandArgs] at h
    · simp [execSignCommand, commandArgs]
  | cons a rest =>
    have hexec : execSignCommand envR envL getSigner (a :: rest) opts =
        runE envR envL getSigner { opts with reference := a } := rfl
    rw [hexec]
    by_cases hv : validateSignatureManifest opts.signatureManifest = true
    · have hrv : runE envR envL getSigner { opts with reference := a } =
          runSign envR envL getSigner { opts with reference := a } := by
        simp [runE, hv]
      rw [hrv]
      cases hgs : getSigner with
      | error e =>
        refine ⟨fun h => ?_, fun h => ?_⟩
        · simp [runSign] at h
        · simp [runSign]
      | ok u =>
        cases u
        by_cases hl : opts.localContent = true
        · have hdis : runSign envR envL (.ok ()) { opts with reference := a } =
              signLocal envL { opts with reference := a }
                (({ opts with reference := a } : SignOpts).signatureManifest == signatureManifestImage) := by
            simp [runSign, hl]
          rw [hdis]
          exact signLocal_outcome envL _ _
        · have hl' : opts.localContent = false := by
            simpa using hl
          have hdis : runSign envR envL (.ok ()) { opts with reference := a } =
              signRemote envR { opts with reference := a }
                (({ opts with reference := a } : SignOpts).signatureManifest == signatureManifestImage) := by
            simp [runSign, hl']
          rw [hdis]
          exact signRemote_outcome envR _ _
    · have hv' : validateSignatureManifest opts.signatureManifest = false := by
        simpa using hv
      refine ⟨fun h => ?_, fun h => ?_⟩
      · simp [runE, hv'] at h
      · simp [runE, hv']

/-- Witness for C6: the demonstration registry run succeeds, prints
exactly one success line, and that line closes the output. -/
theorem sign_outcome_trichotomy_witness :
    (execSignCommand demoRemoteEnv demoLocalEnv (.ok ()) ["registry.example.com/repo:v1"] demoOpts).out.countP isSuccessLine = 1 ∧
    ∃ s, (execSignCommand demoRemoteEnv demoLocalEnv (.ok ()) ["registry.example.com/repo:v1"] demoOpts).out.getLast? =
      some (.stdout ("Successfully signed " ++ s)) :=
  (sign_outcome_trichotomy demoRemoteEnv demoLocalEnv (.ok ())
    ["registry.example.com/repo:v1"] demoOpts).1 (by decide)
